import Mathlib

/-!
Verification development for the tempoch C++ wrapper library.

Shallow embedding of the wrapper headers (`ffi_core.hpp`, `civil_time.hpp`,
`time.hpp`, `time_base.hpp`, `scales.hpp`, `period.hpp`) over the rational
numbers.  The native time-core library and the qtty unit library are reachable
only through a C interface whose header is not part of this repository; those
leaf functions are modelled from the specification's call contract and marked
`Modelled from the spec:` in their doc comments.  C++ exceptions are modelled
with `Except`.
-/

namespace Tempoch

-- ============================================================================
-- Status codes and the error-translation layer (ffi_core.hpp)
-- ============================================================================

/-- Modelled from the spec: the fixed status taxonomy returned by every
fallible native call (`tempoch_status_t` in the missing `tempoch_ffi.h`);
`other` stands for any unrecognized raw status code. -/
inductive Status where
  | ok
  | nullPointer
  | utcConversionFailed
  | invalidPeriod
  | noIntersection
  | other (code : ℤ)
deriving DecidableEq

/-- The exception hierarchy of `ffi_core.hpp`, identified by its leaf class
(`NullPointerError`, `UtcConversionError`, `InvalidPeriodError`,
`NoIntersectionError`, or the base `TempochException` for unknown codes). -/
inductive ErrKind where
  | nullPointer
  | utcConversionFailed
  | invalidPeriod
  | noIntersection
  | unknown (code : ℤ)
deriving DecidableEq

/-- A thrown tempoch exception: its class (kind) and its what() message. -/
structure TempochError where
  kind : ErrKind
  msg : String
deriving DecidableEq

/-- `check_status` from `ffi_core.hpp`: return normally on OK, otherwise
throw the exception selected by the status code, with a message built from
the operation name and a cause string. -/
def check_status (status : Status) (op : String) : Except TempochError Unit :=
  match status with
  | .ok => .ok ()
  | .nullPointer =>
      .error ⟨.nullPointer, op ++ " failed: " ++ "null output pointer"⟩
  | .utcConversionFailed =>
      .error ⟨.utcConversionFailed, op ++ " failed: " ++ "UTC conversion failed"⟩
  | .invalidPeriod =>
      .error ⟨.invalidPeriod, op ++ " failed: " ++ "invalid period (start > end)"⟩
  | .noIntersection =>
      .error ⟨.noIntersection, op ++ " failed: " ++ "periods do not intersect"⟩
  | .other c =>
      .error ⟨.unknown c, op ++ " failed: " ++ ("unknown error (" ++ toString c ++ ")")⟩

/-- The exception class selected by each non-OK status in `check_status`'s
switch (the value at `.ok` is irrelevant: `check_status` throws nothing there). -/
def kindOf : Status → ErrKind
  | .ok => .unknown 0
  | .nullPointer => .nullPointer
  | .utcConversionFailed => .utcConversionFailed
  | .invalidPeriod => .invalidPeriod
  | .noIntersection => .noIntersection
  | .other c => .unknown c

-- ============================================================================
-- Theorems: C7
-- ============================================================================

/-- C7: `check_status` returns normally exactly when the status is OK; every
non-OK status throws exactly the exception kind given by `kindOf` (NullPointer
for a null output pointer, UtcConversionFailed for a rejected civil
conversion, InvalidPeriod for start later than end, NoIntersection for
non-overlapping periods, Unknown preserving the raw code), and the message
carries the failing operation's name followed by a non-empty cause string. -/
theorem check_status_taxonomy (st : Status) (op : String) :
    (check_status st op = Except.ok () ↔ st = Status.ok) ∧
    (st ≠ Status.ok →
      ∃ cause : String, cause ≠ "" ∧
        check_status st op = Except.error ⟨kindOf st, op ++ " failed: " ++ cause⟩) := by
  constructor
  · cases st <;> simp [check_status]
  · intro h
    cases st with
    | ok => exact absurd rfl h
    | nullPointer => exact ⟨"null output pointer", by simp, rfl⟩
    | utcConversionFailed => exact ⟨"UTC conversion failed", by simp, rfl⟩
    | invalidPeriod => exact ⟨"invalid period (start > end)", by simp, rfl⟩
    | noIntersection => exact ⟨"periods do not intersect", by simp, rfl⟩
    | other c =>
        refine ⟨"unknown error (" ++ toString c ++ ")", ?_, rfl⟩
        intro hc
        have hlen := congrArg String.length hc
        simp [String.length_append] at hlen
        exact absurd hlen.2 (by decide)

/-- Witness for C7 at the concrete status `invalidPeriod` raised from the
`Period::Period` constructor. -/
theorem check_status_taxonomy_witness :
    ∃ cause : String, cause ≠ "" ∧
      check_status Status.invalidPeriod "Period::Period" =
        Except.error ⟨kindOf Status.invalidPeriod, "Period::Period" ++ " failed: " ++ cause⟩ :=
  (check_status_taxonomy Status.invalidPeriod "Period::Period").2 (by decide)

-- ============================================================================
-- CivilTime (civil_time.hpp)
-- ============================================================================

/-- The `CivilTime` breakdown struct of `civil_time.hpp`.  The C++ fields are
`int32_t` / `uint8_t` / `uint32_t`; the claims never exercise machine-width
wrap-around, so year is ℤ and the clock fields are ℕ. -/
structure CivilTime where
  year : ℤ
  month : ℕ
  day : ℕ
  hour : ℕ
  minute : ℕ
  second : ℕ
  nanosecond : ℕ
deriving DecidableEq

/-- The default constructor of `CivilTime`: the J2000 epoch noon-like civil
representation. -/
def CivilTime.mkDefault : CivilTime :=
  { year := 2000, month := 1, day := 1, hour := 12, minute := 0, second := 0,
    nanosecond := 0 }

/-- `std::setw(w)` with `std::setfill('0')` applied to a decimal number: pad
on the left with zeros up to width `w`, never truncating a wider number. -/
def padNum (w : ℕ) (n : ℕ) : String :=
  let s := Nat.repr n
  if s.length < w then String.mk (List.replicate (w - s.length) '0') ++ s else s

/-- The `operator<<` for `CivilTime` in `civil_time.hpp`: the year streamed
with no width/fill manipulator, then the five clock fields each under
`setw(2)`/`setfill('0')`, then — only when the nanosecond field is non-zero —
a dot and the nanoseconds under `setw(9)`. -/
def CivilTime.render (u : CivilTime) : String :=
  toString u.year ++ "-" ++ padNum 2 u.month ++ "-" ++ padNum 2 u.day ++ " " ++
  padNum 2 u.hour ++ ":" ++ padNum 2 u.minute ++ ":" ++ padNum 2 u.second ++
  (if u.nanosecond ≠ 0 then "." ++ padNum 9 u.nanosecond else "")

/-- Zero-padding written directly from the spec's words: prefix the decimal
form with zeros up to the field width. -/
def zeroPad (w : ℕ) (n : ℕ) : String :=
  String.mk (List.replicate (w - (Nat.repr n).length) '0') ++ Nat.repr n

/-- The rendering the claim describes: `YYYY-MM-DD HH:MM:SS[.nnnnnnnnn]` with
the year zero-padded to four digits, month/day/hour/minute/second to two,
the fraction to nine, fraction present exactly when nanosecond ≠ 0. -/
def claimedRender (u : CivilTime) : String :=
  (if u.year < 0 then "-" ++ zeroPad 4 u.year.natAbs else zeroPad 4 u.year.toNat) ++
  "-" ++ zeroPad 2 u.month ++ "-" ++ zeroPad 2 u.day ++ " " ++
  zeroPad 2 u.hour ++ ":" ++ zeroPad 2 u.minute ++ ":" ++ zeroPad 2 u.second ++
  (if u.nanosecond = 0 then "" else "." ++ zeroPad 9 u.nanosecond)

/-- The amended rendering: identical to the claimed one except that the year
is rendered as its plain decimal form with no zero-padding. -/
def amendedRender (u : CivilTime) : String :=
  toString u.year ++ "-" ++ zeroPad 2 u.month ++ "-" ++ zeroPad 2 u.day ++ " " ++
  zeroPad 2 u.hour ++ ":" ++ zeroPad 2 u.minute ++ ":" ++ zeroPad 2 u.second ++
  (if u.nanosecond = 0 then "" else "." ++ zeroPad 9 u.nanosecond)

-- ============================================================================
-- Theorems: C10, C8
-- ============================================================================

/-- C10: a default-constructed `CivilTime` equals the J2000 noon breakdown:
year 2000, month 1, day 1, hour 12, minute 0, second 0, nanosecond 0. -/
theorem civil_default_is_j2000_noon :
    CivilTime.mkDefault.year = 2000 ∧ CivilTime.mkDefault.month = 1 ∧
    CivilTime.mkDefault.day = 1 ∧ CivilTime.mkDefault.hour = 12 ∧
    CivilTime.mkDefault.minute = 0 ∧ CivilTime.mkDefault.second = 0 ∧
    CivilTime.mkDefault.nanosecond = 0 := by
  refine ⟨rfl, rfl, rfl, rfl, rfl, rfl, rfl⟩

/-- C8 counterexample: at the breakdown 0999-01-01 00:00:00 the code renders
the year as `999` with no zero-padding, so the rendering differs from the
claimed four-digit-year form. -/
theorem civil_render_year_not_padded :
    CivilTime.render ⟨999, 1, 1, 0, 0, 0, 0⟩ = "999-01-01 00:00:00" ∧
    claimedRender ⟨999, 1, 1, 0, 0, 0, 0⟩ = "0999-01-01 00:00:00" ∧
    CivilTime.render ⟨999, 1, 1, 0, 0, 0, 0⟩ ≠ claimedRender ⟨999, 1, 1, 0, 0, 0, 0⟩ := by
  refine ⟨by decide, by decide, by decide⟩

/-- Helper: the stream-manipulator padding and the spec-worded padding agree
(when the number is already at least `w` digits wide both leave it alone). -/
theorem padNum_eq_zeroPad (w n : ℕ) : padNum w n = zeroPad w n := by
  unfold padNum zeroPad
  by_cases h : (Nat.repr n).length < w
  · simp [h]
  · have hz : w - (Nat.repr n).length = 0 := by omega
    simp [h, hz]

/-- C8 amended: every civil breakdown renders as
`Y-MM-DD HH:MM:SS[.nnnnnnnnn]` where the year is its plain decimal form with
no zero-padding, month/day/hour/minute/second are zero-padded to two digits,
the fractional part is zero-padded to nine digits, and the fractional part is
present exactly when the nanosecond field is non-zero. -/
theorem civil_render_amended (u : CivilTime) :
    CivilTime.render u = amendedRender u := by
  unfold CivilTime.render amendedRender
  by_cases h : u.nanosecond = 0 <;>
    simp [h, padNum_eq_zeroPad]

-- ============================================================================
-- Scale tags and cross-scale conversion (scales.hpp)
-- ============================================================================

/-- The twelve scale tag types of `scales.hpp`. -/
inductive Scale where
  | jd
  | mjd
  | utc
  | tt
  | tai
  | tdb
  | tcg
  | tcb
  | gps
  | ut
  | jde
  | unixTime
deriving DecidableEq

/-- Modelled from the spec: the native JD↔physical-scale half-path functions
(`tempoch_jd_to_tt`, `tempoch_tt_to_jd`, … in the missing `tempoch_ffi.h`).
They are pure day-count arithmetic whose formulas live in the external
time-core library, so they are kept abstract here as one function field per
native entry point. -/
structure ScaleFns where
  jd_to_tt : ℚ → ℚ
  tt_to_jd : ℚ → ℚ
  jd_to_tai : ℚ → ℚ
  tai_to_jd : ℚ → ℚ
  jd_to_tdb : ℚ → ℚ
  tdb_to_jd : ℚ → ℚ
  jd_to_tcg : ℚ → ℚ
  tcg_to_jd : ℚ → ℚ
  jd_to_tcb : ℚ → ℚ
  tcb_to_jd : ℚ → ℚ
  jd_to_gps : ℚ → ℚ
  gps_to_jd : ℚ → ℚ
  jd_to_ut : ℚ → ℚ
  ut_to_jd : ℚ → ℚ
  jd_to_jde : ℚ → ℚ
  jde_to_jd : ℚ → ℚ
  jd_to_unix : ℚ → ℚ
  unix_to_jd : ℚ → ℚ

/-- The documented JD/MJD offset: MJD = JD − 2 400 000.5. -/
def mjdShift : ℚ := 2400000 + 1 / 2

/-- Modelled from the spec: `tempoch_jd_to_mjd` subtracts the fixed offset. -/
def tempoch_jd_to_mjd (jd : ℚ) : ℚ := jd - mjdShift

/-- Modelled from the spec: `tempoch_mjd_to_jd` adds the fixed offset. -/
def tempoch_mjd_to_jd (m : ℚ) : ℚ := m + mjdShift

/-- The `JdToS` template argument each JD-backed scale passes to
`detail::JDBackedScaleTraits` in `scales.hpp` (identity on the three scales
that are not JD-backed, where it is never used). -/
def jdToS (F : ScaleFns) : Scale → ℚ → ℚ
  | .tt => F.jd_to_tt
  | .tai => F.jd_to_tai
  | .tdb => F.jd_to_tdb
  | .tcg => F.jd_to_tcg
  | .tcb => F.jd_to_tcb
  | .gps => F.jd_to_gps
  | .ut => F.jd_to_ut
  | .jde => F.jd_to_jde
  | .unixTime => F.jd_to_unix
  | _ => fun x => x

/-- The `SToJd` template argument each JD-backed scale passes to
`detail::JDBackedScaleTraits` in `scales.hpp` (identity on the three scales
that are not JD-backed, where it is never used). -/
def sToJd (F : ScaleFns) : Scale → ℚ → ℚ
  | .tt => F.tt_to_jd
  | .tai => F.tai_to_jd
  | .tdb => F.tdb_to_jd
  | .tcg => F.tcg_to_jd
  | .tcb => F.tcb_to_jd
  | .gps => F.gps_to_jd
  | .ut => F.ut_to_jd
  | .jde => F.jde_to_jd
  | .unixTime => F.unix_to_jd
  | _ => fun x => x

/-- Resolution of `TimeConvertTraits<S, JDScale>::convert`: the identity
partial specialisation on the diagonal, `tempoch_mjd_to_jd` for the two
MJD-stored scales, and the scale's own half-path otherwise. -/
def halfToJD (F : ScaleFns) : Scale → ℚ → ℚ
  | .jd => fun x => x
  | .mjd => tempoch_mjd_to_jd
  | .utc => tempoch_mjd_to_jd
  | s => sToJd F s

/-- Resolution of `TimeConvertTraits<JDScale, S>::convert`. -/
def halfFromJD (F : ScaleFns) : Scale → ℚ → ℚ
  | .jd => fun x => x
  | .mjd => tempoch_jd_to_mjd
  | .utc => tempoch_jd_to_mjd
  | s => jdToS F s

/-- Whether `scales.hpp` has a full `TimeConvertTraits` specialisation for
the ordered pair (A, B).  The diagonal is handled by the identity partial
specialisation, not by a full one. -/
def hasDirect : Scale → Scale → Bool
  | .jd, .jd => false
  | .jd, _ => true
  | _, .jd => true
  | .mjd, .utc => true
  | .utc, .mjd => true
  | .mjd, .tt => true
  | .tt, .mjd => true
  | .mjd, .tdb => true
  | .tdb, .mjd => true
  | .mjd, .tai => true
  | .tai, .mjd => true
  | _, _ => false

/-- The conversion graph: C++ overload resolution for
`TimeConvertTraits<A, B>::convert(v)`.  The diagonal hits the identity
partial specialisation; the listed pairs hit their full specialisations; any
other pair hits the primary template, which composes the two JD half-path
specialisations. -/
def convert (F : ScaleFns) (A B : Scale) (v : ℚ) : ℚ :=
  if A = B then v
  else
    match A, B with
    | .jd, .mjd => tempoch_jd_to_mjd v
    | .mjd, .jd => tempoch_mjd_to_jd v
    | .jd, .utc => tempoch_jd_to_mjd v
    | .utc, .jd => tempoch_mjd_to_jd v
    | .mjd, .utc => v
    | .utc, .mjd => v
    | .jd, .tt => F.jd_to_tt v
    | .tt, .jd => F.tt_to_jd v
    | .jd, .tai => F.jd_to_tai v
    | .tai, .jd => F.tai_to_jd v
    | .jd, .tdb => F.jd_to_tdb v
    | .tdb, .jd => F.tdb_to_jd v
    | .jd, .tcg => F.jd_to_tcg v
    | .tcg, .jd => F.tcg_to_jd v
    | .jd, .tcb => F.jd_to_tcb v
    | .tcb, .jd => F.tcb_to_jd v
    | .jd, .gps => F.jd_to_gps v
    | .gps, .jd => F.gps_to_jd v
    | .jd, .ut => F.jd_to_ut v
    | .ut, .jd => F.ut_to_jd v
    | .jd, .jde => F.jd_to_jde v
    | .jde, .jd => F.jde_to_jd v
    | .jd, .unixTime => F.jd_to_unix v
    | .unixTime, .jd => F.unix_to_jd v
    | .mjd, .tt => F.jd_to_tt (tempoch_mjd_to_jd v)
    | .tt, .mjd => tempoch_jd_to_mjd (F.tt_to_jd v)
    | .mjd, .tdb => F.jd_to_tdb (tempoch_mjd_to_jd v)
    | .tdb, .mjd => tempoch_jd_to_mjd (F.tdb_to_jd v)
    | .mjd, .tai => F.jd_to_tai (tempoch_mjd_to_jd v)
    | .tai, .mjd => tempoch_jd_to_mjd (F.tai_to_jd v)
    | a, b => halfFromJD F b (halfToJD F a v)

/-- A concrete instantiation of the abstract half-path family, used by the
witnesses: each physical scale is a distinct fixed offset from JD. -/
def sampleFns : ScaleFns where
  jd_to_tt := fun x => x + 1
  tt_to_jd := fun x => x - 1
  jd_to_tai := fun x => x + 2
  tai_to_jd := fun x => x - 2
  jd_to_tdb := fun x => x + 3
  tdb_to_jd := fun x => x - 3
  jd_to_tcg := fun x => x + 4
  tcg_to_jd := fun x => x - 4
  jd_to_tcb := fun x => x + 5
  tcb_to_jd := fun x => x - 5
  jd_to_gps := fun x => x + 6
  gps_to_jd := fun x => x - 6
  jd_to_ut := fun x => x + 7
  ut_to_jd := fun x => x - 7
  jd_to_jde := fun x => x + 8
  jde_to_jd := fun x => x - 8
  jd_to_unix := fun x => x + 9
  unix_to_jd := fun x => x - 9

-- ============================================================================
-- Theorems: C6, C4
-- ============================================================================

/-- C6: the identity conversion from any scale to itself returns the input
unchanged, for every family of native half-paths and every value. -/
theorem convert_identity (F : ScaleFns) (S : Scale) (v : ℚ) :
    convert F S S v = v := by
  simp [convert]

/-- Helper: converting from any scale to JD agrees with the resolved
`TimeConvertTraits<A, JDScale>` half-path. -/
theorem convert_to_jd (F : ScaleFns) (A : Scale) (v : ℚ) :
    convert F A Scale.jd v = halfToJD F A v := by
  cases A <;> rfl

/-- Helper: converting from JD to any scale agrees with the resolved
`TimeConvertTraits<JDScale, B>` half-path. -/
theorem convert_from_jd (F : ScaleFns) (B : Scale) (v : ℚ) :
    convert F Scale.jd B v = halfFromJD F B v := by
  cases B <;> rfl

/-- C4: for every pair of distinct scales with no direct specialisation, the
conversion is the composition of the A→JD and JD→B half-paths; and for every
pair with a direct specialisation, the direct conversion agrees exactly
(hence within any tolerance) with the hub-routed A→JD→B path, for every
half-path family and every input. -/
theorem convert_hub_structure (F : ScaleFns) (A B : Scale) (v : ℚ) :
    (hasDirect A B = false → A ≠ B →
      convert F A B v = convert F Scale.jd B (convert F A Scale.jd v)) ∧
    (hasDirect A B = true →
      convert F A B v = convert F Scale.jd B (convert F A Scale.jd v)) := by
  rw [convert_to_jd, convert_from_jd]
  constructor
  · intro hdir hne
    cases A <;> cases B <;>
      simp_all [convert, hasDirect, halfToJD, halfFromJD, jdToS, sToJd]
  · intro hdir
    cases A <;> cases B <;>
      simp_all [convert, hasDirect, halfToJD, halfFromJD, jdToS, sToJd,
        tempoch_jd_to_mjd, tempoch_mjd_to_jd]

/-- Witness for C4: the TT→TAI pair (no direct specialisation) routes through
JD, and the direct MJD→TT specialisation agrees with its hub route, at the
sample half-path family and the value 60200. -/
theorem convert_hub_structure_witness :
    convert sampleFns Scale.tt Scale.tai 60200 =
      convert sampleFns Scale.jd Scale.tai (convert sampleFns Scale.tt Scale.jd 60200) ∧
    convert sampleFns Scale.mjd Scale.tt 60200 =
      convert sampleFns Scale.jd Scale.tt (convert sampleFns Scale.mjd Scale.jd 60200) :=
  ⟨(convert_hub_structure sampleFns Scale.tt Scale.tai 60200).1 (by decide) (by decide),
   (convert_hub_structure sampleFns Scale.mjd Scale.tt 60200).2 (by decide)⟩

-- ============================================================================
-- Typed quantities and Time<S> arithmetic (time_base.hpp)
-- ============================================================================

/-- Modelled from the spec: the qtty time-unit identifiers this core uses. -/
inductive TUnit where
  | day
  | hour
  | minute
  | second
  | julianCentury
deriving DecidableEq

/-- Modelled from the spec: the unit-to-day conversion factor of the external
qtty layer (1 day = 24 h = 1440 min = 86 400 s; 1 Julian century = 36 525 d). -/
def TUnit.dayFactor : TUnit → ℚ
  | .day => 1
  | .hour => 1 / 24
  | .minute => 1 / 1440
  | .second => 1 / 86400
  | .julianCentury => 36525

/-- Modelled from the spec: a qtty quantity — a numeric value tagged with a
physical unit (`qtty_quantity_t`). -/
structure Qty where
  value : ℚ
  unit : TUnit
deriving DecidableEq

/-- A quantity's magnitude expressed in days. -/
def Qty.toDays (q : Qty) : ℚ := q.value * q.unit.dayFactor

/-- Modelled from the spec: qtty unit conversion — rescale the value by the
ratio of the two units' day factors. -/
def Qty.toUnit (q : Qty) (u : TUnit) : Qty :=
  ⟨q.value * q.unit.dayFactor / u.dayFactor, u⟩

/-- Modelled from the spec: `tempoch_jd_add_qty` — advance a JD day-count by
a typed quantity, reporting a status. -/
def jdAddQtyRaw (v : ℚ) (q : Qty) : Status × ℚ := (Status.ok, v + q.toDays)

/-- Modelled from the spec: `tempoch_mjd_add_qty`. -/
def mjdAddQtyRaw (v : ℚ) (q : Qty) : Status × ℚ := (Status.ok, v + q.toDays)

/-- Modelled from the spec: `tempoch_jd_difference_qty` — a − b as a Day
quantity. -/
def jdDiffQtyRaw (a b : ℚ) : Qty := ⟨a - b, TUnit.day⟩

/-- Modelled from the spec: `tempoch_mjd_difference_qty`. -/
def mjdDiffQtyRaw (a b : ℚ) : Qty := ⟨a - b, TUnit.day⟩

/-- `TimeScaleTraits<S>::add_qty` of `scales.hpp`: JD and the two MJD-stored
scales call their native add directly; every JD-backed scale converts to JD,
adds there, and converts back (`detail::JDBackedScaleTraits::add_qty`). -/
def traitsAddQty (F : ScaleFns) (S : Scale) (v : ℚ) (q : Qty) :
    Except TempochError ℚ :=
  match S with
  | .jd =>
      let r := jdAddQtyRaw v q
      (check_status r.1 "Time<JD>::add_qty").map fun _ => r.2
  | .mjd =>
      let r := mjdAddQtyRaw v q
      (check_status r.1 "Time<MJD>::add_qty").map fun _ => r.2
  | .utc =>
      let r := mjdAddQtyRaw v q
      (check_status r.1 "Time<MJD>::add_qty").map fun _ => r.2
  | s =>
      let r := jdAddQtyRaw (sToJd F s v) q
      (check_status r.1 "Time<JD-backed>::add_qty").map fun _ => jdToS F s r.2

/-- `TimeScaleTraits<S>::difference_qty` of `scales.hpp`. -/
def traitsDiffQty (F : ScaleFns) (S : Scale) (a b : ℚ) : Qty :=
  match S with
  | .jd => jdDiffQtyRaw a b
  | .mjd => mjdDiffQtyRaw a b
  | .utc => mjdDiffQtyRaw a b
  | s => jdDiffQtyRaw (sToJd F s a) (sToJd F s b)

/-- `Time<S>::operator+(qtty::Quantity)` of `time_base.hpp`. -/
def Time.addQ (F : ScaleFns) (S : Scale) (t : ℚ) (d : Qty) :
    Except TempochError ℚ :=
  traitsAddQty F S t d

/-- `Time<S>::operator-(qtty::Quantity)` of `time_base.hpp`: adds the negated
quantity. -/
def Time.subQ (F : ScaleFns) (S : Scale) (t : ℚ) (d : Qty) :
    Except TempochError ℚ :=
  traitsAddQty F S t ⟨-d.value, d.unit⟩

/-- `Time<S>::operator-(Time)` of `time_base.hpp`: the scale-trait difference
wrapped as a `qtty::Day`. -/
def Time.diffQ (F : ScaleFns) (S : Scale) (a b : ℚ) : Qty :=
  ⟨(traitsDiffQty F S a b).value, TUnit.day⟩

-- ============================================================================
-- Theorems: C5
-- ============================================================================

/-- C5: on every scale, under the spec's scale-round-trip contract for the
native half-paths, adding a duration to a time-point and differencing against
the original yields the duration back in its own unit, and adding then
subtracting the duration returns the original time-point. -/
theorem time_add_diff_roundtrip (F : ScaleFns)
    (hsj : ∀ (S : Scale) (x : ℚ), sToJd F S (jdToS F S x) = x)
    (hjs : ∀ (S : Scale) (x : ℚ), jdToS F S (sToJd F S x) = x)
    (S : Scale) (t : ℚ) (d : Qty) :
    ∃ t2 : ℚ, Time.addQ F S t d = Except.ok t2 ∧
      ((Time.diffQ F S t2 t).toUnit d.unit).value = d.value ∧
      Time.subQ F S t2 d = Except.ok t := by
  have hfac : d.unit.dayFactor ≠ 0 := by cases d.unit <;> norm_num [TUnit.dayFactor]
  cases S <;>
    simp only [Time.addQ, Time.subQ, Time.diffQ, traitsAddQty, traitsDiffQty,
      jdAddQtyRaw, mjdAddQtyRaw, jdDiffQtyRaw, mjdDiffQtyRaw, check_status,
      Except.map, Qty.toUnit, Qty.toDays, TUnit.dayFactor] <;>
    refine ⟨_, rfl, ?_, ?_⟩ <;>
    simp_all [Qty.toDays, TUnit.dayFactor]

/-- Witness for C5: the TT scale with the sample offset half-paths, the
time-point 60200 and a 3-hour duration. -/
theorem time_add_diff_roundtrip_witness :
    ∃ t2 : ℚ, Time.addQ sampleFns Scale.tt 60200 ⟨3, TUnit.hour⟩ = Except.ok t2 ∧
      ((Time.diffQ sampleFns Scale.tt t2 60200).toUnit TUnit.hour).value = 3 ∧
      Time.subQ sampleFns Scale.tt t2 ⟨3, TUnit.hour⟩ = Except.ok 60200 := by
  have h := time_add_diff_roundtrip sampleFns
    (by intro S x; cases S <;> simp [sToJd, jdToS, sampleFns])
    (by intro S x; cases S <;> simp [sToJd, jdToS, sampleFns])
    Scale.tt 60200 ⟨3, TUnit.hour⟩
  exact h

-- ============================================================================
-- MJD / JulianDate / UTC representation types (time.hpp) and TimeTraits
-- ============================================================================

/-- The `MJD` wrapper class of `time.hpp`: a raw day-count value. -/
structure MJD where
  value : ℚ
deriving DecidableEq

/-- The `JulianDate` wrapper class of `time.hpp`: a raw day-count value. -/
structure JulianDate where
  value : ℚ
deriving DecidableEq

/-- `MJD::to_jd` of `time.hpp`. -/
def MJD.to_jd (m : MJD) : JulianDate := ⟨tempoch_mjd_to_jd m.value⟩

/-- `JulianDate::to_mjd` of `time.hpp`. -/
def JulianDate.to_mjd (j : JulianDate) : ℚ := tempoch_jd_to_mjd j.value

/-- Modelled from the spec: the native civil⇄day-count converter pair
(`tempoch_mjd_from_utc` / `tempoch_mjd_to_utc` in the missing
`tempoch_ffi.h`), kept abstract: each returns a status and a C-style output
value.  Validity of a breakdown or a day-count is adjudicated by this layer. -/
structure NativeCivil where
  mjd_from_utc : CivilTime → Status × ℚ
  mjd_to_utc : ℚ → Status × CivilTime

/-- `MJD::from_utc` of `time.hpp`: native call, then `check_status`. -/
def MJD.from_utc (N : NativeCivil) (u : CivilTime) : Except TempochError MJD :=
  let r := N.mjd_from_utc u
  (check_status r.1 "MJD::from_utc").map fun _ => ⟨r.2⟩

/-- `MJD::to_utc` of `time.hpp`: native call, then `check_status`. -/
def MJD.to_utc (N : NativeCivil) (m : MJD) : Except TempochError CivilTime :=
  let r := N.mjd_to_utc m.value
  (check_status r.1 "MJD::to_utc").map fun _ => r.2

/-- The `TimeTraits<T>` adapter interface of `period.hpp`; both directions
may throw in C++ (the UTC adapter does), so both return `Except`. -/
structure TimeTraitsT (T : Type) where
  to_mjd_value : T → Except TempochError ℚ
  from_mjd_value : ℚ → Except TempochError T

/-- `TimeTraits<MJD>` of `period.hpp`. -/
def mjdTraits : TimeTraitsT MJD where
  to_mjd_value := fun t => .ok t.value
  from_mjd_value := fun m => .ok ⟨m⟩

/-- `TimeTraits<JulianDate>` of `period.hpp`. -/
def jdTraits : TimeTraitsT JulianDate where
  to_mjd_value := fun t => .ok t.to_mjd
  from_mjd_value := fun m => .ok (MJD.to_jd ⟨m⟩)

/-- `TimeTraits<UTC>` of `period.hpp`: `MJD::from_utc(t).value()` one way and
`MJD(m).to_utc()` the other, both through the native civil converter. -/
def utcTraits (N : NativeCivil) : TimeTraitsT CivilTime where
  to_mjd_value := fun u => (MJD.from_utc N u).map MJD.value
  from_mjd_value := fun m => MJD.to_utc N ⟨m⟩

-- ============================================================================
-- Period<T> (period.hpp)
-- ============================================================================

/-- The `tempoch_period_mjd_t` FFI struct: two raw MJD day-counts. -/
structure PeriodMJD where
  start_mjd : ℚ
  end_mjd : ℚ
deriving DecidableEq

/-- Modelled from the spec: `tempoch_period_mjd_new` stores the two values
and reports INVALID_PERIOD exactly when start exceeds end (the zero-length
case start = end is accepted). -/
def tempoch_period_mjd_new (s e : ℚ) : Status × PeriodMJD :=
  if e < s then (Status.invalidPeriod, ⟨s, e⟩) else (Status.ok, ⟨s, e⟩)

/-- Modelled from the spec: `tempoch_period_mjd_intersection` takes the max
of the starts and the min of the ends and reports NO_INTERSECTION exactly
when that new start exceeds the new end. -/
def tempoch_period_mjd_intersection (p q : PeriodMJD) : Status × PeriodMJD :=
  let ns := max p.start_mjd q.start_mjd
  let ne := min p.end_mjd q.end_mjd
  if ne < ns then (Status.noIntersection, ⟨ns, ne⟩) else (Status.ok, ⟨ns, ne⟩)

/-- The validating `Period<T>` constructor of `period.hpp`: convert both
bounds through the traits adapter, call the native constructor, translate
its status through `check_status`. -/
def Period.construct {T : Type} (tr : TimeTraitsT T) (s e : T) :
    Except TempochError PeriodMJD := do
  let a ← tr.to_mjd_value s
  let b ← tr.to_mjd_value e
  let r := tempoch_period_mjd_new a b
  let _ ← check_status r.1 "Period::Period"
  return r.2

/-- `Period<T>::from_c` of `period.hpp`: wrap the C struct through the
private trusting constructor, with no validation of any kind. -/
def Period.from_c (c : PeriodMJD) : PeriodMJD := c

/-- `Period<T>::c_inner` of `period.hpp`. -/
def Period.c_inner (p : PeriodMJD) : PeriodMJD := p

/-- `Period<T>::start` of `period.hpp`. -/
def Period.start {T : Type} (tr : TimeTraitsT T) (p : PeriodMJD) :
    Except TempochError T :=
  tr.from_mjd_value p.start_mjd

/-- `Period<T>::end` of `period.hpp` (`end` is reserved in Lean). -/
def Period.end_ {T : Type} (tr : TimeTraitsT T) (p : PeriodMJD) :
    Except TempochError T :=
  tr.from_mjd_value p.end_mjd

/-- `Period<T>::intersection` of `period.hpp`: native call, `check_status`,
then the trusting `from_c` wrap. -/
def Period.intersection (p q : PeriodMJD) : Except TempochError PeriodMJD :=
  let r := tempoch_period_mjd_intersection p q
  (check_status r.1 "Period::intersection").map fun _ => Period.from_c r.2

-- ============================================================================
-- Theorems: C1, C2, C9
-- ============================================================================

/-- C1: for any representation with a traits adapter whose two bounds convert
to internal MJD day-counts `a` and `b`, the validating constructor succeeds
exactly when `a ≤ b` (so the zero-length case is accepted) and throws the
InvalidPeriod kind exactly when `a > b`. -/
theorem period_construct_iff {T : Type} (tr : TimeTraitsT T) (s e : T) (a b : ℚ)
    (ha : tr.to_mjd_value s = Except.ok a) (hb : tr.to_mjd_value e = Except.ok b) :
    ((∃ p, Period.construct tr s e = Except.ok p) ↔ a ≤ b) ∧
    ((∃ err, Period.construct tr s e = Except.error err ∧
        err.kind = ErrKind.invalidPeriod) ↔ b < a) := by
  unfold Period.construct tempoch_period_mjd_new
  rw [ha, hb]
  by_cases h : b < a
  · simp [h, check_status, Bind.bind, Except.bind, Except.map, not_le.mpr h]
  · simp [h, check_status, Bind.bind, Except.bind, Except.map, Pure.pure,
      Except.pure, not_lt.mp h]

/-- Witness for C1: the spec's example `Period(MJD 60203.0, MJD 60200.0)`
fails with the InvalidPeriod kind. -/
theorem period_construct_iff_witness :
    ((∃ p, Period.construct mjdTraits ⟨60203⟩ ⟨60200⟩ = Except.ok p) ↔
      (60203 : ℚ) ≤ 60200) ∧
    ((∃ err, Period.construct mjdTraits ⟨60203⟩ ⟨60200⟩ = Except.error err ∧
        err.kind = ErrKind.invalidPeriod) ↔ (60200 : ℚ) < 60203) :=
  period_construct_iff mjdTraits ⟨60203⟩ ⟨60200⟩ 60203 60200 rfl rfl

/-- C2: for two validly constructed periods the intersection returns the
period [max of starts, min of ends] exactly when that pair is ordered, and
throws the NoIntersection kind exactly when the new start exceeds the new
end. -/
theorem period_intersection_maxmin (p q : PeriodMJD)
    (hp : p.start_mjd ≤ p.end_mjd) (hq : q.start_mjd ≤ q.end_mjd) :
    (Period.intersection p q =
        Except.ok ⟨max p.start_mjd q.start_mjd, min p.end_mjd q.end_mjd⟩ ↔
      max p.start_mjd q.start_mjd ≤ min p.end_mjd q.end_mjd) ∧
    ((∃ err, Period.intersection p q = Except.error err ∧
        err.kind = ErrKind.noIntersection) ↔
      min p.end_mjd q.end_mjd < max p.start_mjd q.start_mjd) := by
  unfold Period.intersection tempoch_period_mjd_intersection Period.from_c
  by_cases h : min p.end_mjd q.end_mjd < max p.start_mjd q.start_mjd
  · simp [h, check_status, Except.map, not_le.mpr h]
  · simp [h, check_status, Except.map, not_lt.mp h]

/-- Witness for C2: the spec's example — [60200, 60202] ∩ [60201, 60203]
is exactly [60201, 60202]. -/
theorem period_intersection_maxmin_witness :
    Period.intersection ⟨60200, 60202⟩ ⟨60201, 60203⟩ = Except.ok ⟨60201, 60202⟩ := by
  have h := period_intersection_maxmin ⟨60200, 60202⟩ ⟨60201, 60203⟩
    (by norm_num) (by norm_num)
  have hmax : max (60200 : ℚ) 60201 = 60201 := by norm_num
  have hmin : min (60202 : ℚ) 60203 = 60202 := by norm_num
  have := h.1.mpr (by norm_num)
  simpa [hmax, hmin] using this

/-- C9: `Period<T>::from_c` performs no validation for any pair of raw MJD
doubles — including pairs with start greater than end — and the stored
internal bounds observed through `c_inner`, `start` and `end` are exactly
the two given values. -/
theorem period_from_c_no_validation (s e : ℚ) :
    Period.c_inner (Period.from_c ⟨s, e⟩) = ⟨s, e⟩ ∧
    Period.start mjdTraits (Period.from_c ⟨s, e⟩) = Except.ok ⟨s⟩ ∧
    Period.end_ mjdTraits (Period.from_c ⟨s, e⟩) = Except.ok ⟨e⟩ :=
  ⟨rfl, rfl, rfl⟩

-- ============================================================================
-- Theorems: C3
-- ============================================================================

/-- Helper: a successful validated UTC-period construction pins down the two
native civil-conversion results: both succeeded and produced exactly the
stored internal bounds. -/
theorem construct_utc_ok_inv (N : NativeCivil) (u1 u2 : CivilTime) (p : PeriodMJD)
    (h : Period.construct (utcTraits N) u1 u2 = Except.ok p) :
    N.mjd_from_utc u1 = (Status.ok, p.start_mjd) ∧
    N.mjd_from_utc u2 = (Status.ok, p.end_mjd) := by
  simp only [Period.construct, utcTraits, MJD.from_utc, tempoch_period_mjd_new,
    Bind.bind] at h
  cases h1 : N.mjd_from_utc u1 with
  | mk st1 m1 =>
    rw [h1] at h
    cases st1 <;>
      simp [check_status, Bind.bind, Except.bind, Except.map] at h
    cases h2 : N.mjd_from_utc u2 with
    | mk st2 m2 =>
      rw [h2] at h
      cases st2 <;>
        simp [check_status, Bind.bind, Except.bind, Except.map] at h
      by_cases hlt : m2 < m1
      · simp [hlt, check_status, Bind.bind, Except.bind, Except.map] at h
      · simp [hlt, check_status, Bind.bind, Except.bind, Except.map,
          Pure.pure, Except.pure] at h
        subst h
        exact ⟨rfl, rfl⟩

/-- C3: the period accessors never fail — for the MJD and JulianDate
representations they are pure arithmetic reconstructions, and for the
civil-time (UTC) representation, whose adapter routes through the native
civil converter, they succeed on every validly constructed period, given the
spec's civil round-trip contract for the native converter. -/
theorem period_accessors_never_fail :
    (∀ p : PeriodMJD, (∃ v, Period.start mjdTraits p = Except.ok v) ∧
      (∃ v, Period.end_ mjdTraits p = Except.ok v)) ∧
    (∀ p : PeriodMJD, (∃ v, Period.start jdTraits p = Except.ok v) ∧
      (∃ v, Period.end_ jdTraits p = Except.ok v)) ∧
    (∀ N : NativeCivil,
      (∀ u m, N.mjd_from_utc u = (Status.ok, m) → N.mjd_to_utc m = (Status.ok, u)) →
      ∀ (u1 u2 : CivilTime) (p : PeriodMJD),
        Period.construct (utcTraits N) u1 u2 = Except.ok p →
        (∃ v, Period.start (utcTraits N) p = Except.ok v) ∧
        (∃ v, Period.end_ (utcTraits N) p = Except.ok v)) := by
  refine ⟨fun p => ⟨⟨⟨p.start_mjd⟩, rfl⟩, ⟨⟨p.end_mjd⟩, rfl⟩⟩,
    fun p => ⟨⟨_, rfl⟩, ⟨_, rfl⟩⟩, fun N hrt u1 u2 p hc => ?_⟩
  obtain ⟨h1, h2⟩ := construct_utc_ok_inv N u1 u2 p hc
  constructor
  · exact ⟨u1, by simp [Period.start, utcTraits, MJD.to_utc, hrt u1 p.start_mjd h1,
      check_status, Except.map]⟩
  · exact ⟨u2, by simp [Period.end_, utcTraits, MJD.to_utc, hrt u2 p.end_mjd h2,
      check_status, Except.map]⟩

/-- A concrete native civil converter for the witness: it accepts exactly the
J2000 noon breakdown, mapping it to MJD 51544.5 and back. -/
def sampleCivil : NativeCivil where
  mjd_from_utc := fun u =>
    if u = CivilTime.mkDefault then (Status.ok, (51544.5 : ℚ))
    else (Status.utcConversionFailed, 0)
  mjd_to_utc := fun m =>
    if m = (51544.5 : ℚ) then (Status.ok, CivilTime.mkDefault)
    else (Status.utcConversionFailed, CivilTime.mkDefault)

/-- Witness for C3: the UTC period built from J2000 noon twice over the
sample native converter has failure-free accessors. -/
theorem period_accessors_never_fail_witness :
    (∃ v, Period.start (utcTraits sampleCivil) ⟨51544.5, 51544.5⟩ = Except.ok v) ∧
    (∃ v, Period.end_ (utcTraits sampleCivil) ⟨51544.5, 51544.5⟩ = Except.ok v) := by
  refine period_accessors_never_fail.2.2 sampleCivil ?_ CivilTime.mkDefault
    CivilTime.mkDefault ⟨51544.5, 51544.5⟩ ?_
  · intro u m hm
    by_cases hu : u = CivilTime.mkDefault
    · subst hu
      simp [sampleCivil] at hm
      simp [sampleCivil, hm]
    · simp [sampleCivil, hu] at hm
  · norm_num [Period.construct, utcTraits, MJD.from_utc, sampleCivil,
      tempoch_period_mjd_new, check_status, Bind.bind, Except.bind, Except.map,
      Pure.pure, Except.pure]

end Tempoch
